import Mathlib

/-!
# Verification of the pydynamic schema builder core

Shallow embedding of the Field Registry and Code Generator of the
pydynamic repository (two near-duplicate variants: `app.py`, embedded in
namespace `App`, and `utils.py`, embedded in namespace `Utils`), together
with theorems settling the specification's claims about them.

Conventions of the embedding:
* Python dicts that carry field records become the structure `FieldSpec`;
  constraint dicts become insertion-ordered association lists
  `List (String × CVal)` (Python dicts preserve insertion order).
* Python list indexing primitives (`lst[i] = v`, `lst.pop(i)`) are embedded
  as `Except`-valued operations raising `PyErr.indexError` exactly when
  Python would, including negative-index normalisation.
* Streamlit widget calls inside `get_field_constraints` are embedded by the
  value they return in the default state (their `value=` argument), which is
  the regime the spec's constraint table describes.
-/

/-- A constraint value as produced by the UI widgets: an int from a numeric
input or a bool from a checkbox.  `pyRepr` mirrors Python `repr` on these. -/
inductive CVal where
  | int (n : Int)
  | bool (b : Bool)
deriving DecidableEq, Repr

/-- Python `repr` restricted to the values that occur in constraint dicts. -/
def pyRepr : CVal → String
  | CVal.int n => toString n
  | CVal.bool b => if b then "True" else "False"

/-- One field record, as stored in `st.session_state.field_data`.
`type` is the stored declared-type string (possibly already wrapped in
`Optional[...]`).  The `app.py` variant stores no `"value"` key; its records
are embedded with `value := ""`, matching the `field.get("value", "")`
default used by the only reader of that key. -/
structure FieldSpec where
  name : String
  type : String
  value : String
  constraints : List (String × CVal)
  custom_validations : List (String × String)
deriving DecidableEq, Repr

/-- One entry of `example_items` built inside `utils.py`'s `generate_code`. -/
structure ExampleItem where
  name : String
  value : String
  type : String
deriving DecidableEq, Repr

/-- The only Python exception kind relevant to the registry operations. -/
inductive PyErr where
  | indexError
deriving DecidableEq, Repr

/-- Python index normalisation for a list of length `len`: non-negative
indices must be `< len`, negative indices are offset by `len`. -/
def pyNormIndex (len : Nat) (i : Int) : Option Nat :=
  if 0 ≤ i then
    if i < (len : Int) then some i.toNat else none
  else
    if 0 ≤ i + (len : Int) then some (i + (len : Int)).toNat else none

/-- Python `lst[i] = a`: raises `IndexError` out of range, else replaces. -/
def pyListSet {α : Type} (l : List α) (i : Int) (a : α) : Except PyErr (List α) :=
  match pyNormIndex l.length i with
  | some n => Except.ok (l.set n a)
  | none => Except.error PyErr.indexError

/-- Python `lst.pop(i)` (post-state of the list): raises `IndexError` out of
range, else deletes the element at the normalised index. -/
def pyListPop {α : Type} (l : List α) (i : Int) : Except PyErr (List α) :=
  match pyNormIndex l.length i with
  | some n => Except.ok (l.eraseIdx n)
  | none => Except.error PyErr.indexError

/-- Python truthiness of `constraints.get("nullable", False)`. -/
def truthyOpt : Option CVal → Bool
  | some (CVal.bool b) => b
  | some (CVal.int n) => decide (n ≠ 0)
  | none => false

/-- `constraints.get("nullable", False)` as a Bool. -/
def getNullable (constraints : List (String × CVal)) : Bool :=
  truthyOpt ((constraints.find? (fun kv => kv.1 = "nullable")).map Prod.snd)

namespace Gen

/-!  Text fragments shared verbatim by both variants' `generate_code`. -/

/-- The constant header lines plus the class declaration line. -/
def header_lines (model_name : String) : List String :=
  ["from pydantic import BaseModel, Field, field_validator\n",
   "from typing import Optional, List, Dict\n",
   "from datetime import date, datetime, time\n\n",
   "class " ++ model_name ++ "(BaseModel):\n"]

/-- `", ".join([f"{k}={v!r}" for k, v in constraints.items() if k != "nullable"])` -/
def field_constraints_code (constraints : List (String × CVal)) : String :=
  String.intercalate ", "
    ((constraints.filter (fun kv => kv.1 ≠ "nullable")).map
      (fun kv => kv.1 ++ "=" ++ pyRepr kv.2))

/-- `f"    {field_name}: {field_type} = Field({field_constraints})\n"` -/
def field_decl_line (field : FieldSpec) : String :=
  "    " ++ field.name ++ ": " ++ field.type ++ " = Field(" ++
    field_constraints_code field.constraints ++ ")\n"

/-- One validator block, with its 1-based index `idx` (both variants emit
these five lines; `app.py` appends them as one string, `utils.py` as five,
with identical concatenation). -/
def validator_block (field_name : String) (idx : Nat)
    (logic error_message : String) : String :=
  "    @field_validator(\'" ++ field_name ++ "\')\n" ++
  "    def validate_" ++ field_name ++ "_" ++ toString idx ++ "(cls, value):\n" ++
  "        if " ++ logic ++ ":\n" ++
  "            raise ValueError(\'" ++ error_message ++ "\')\n" ++
  "        return value\n\n"

/-- `for idx, (logic, error_message) in enumerate(custom_validations, start=1)` -/
def validator_blocks (field_name : String)
    (custom_validations : List (String × String)) : List String :=
  custom_validations.enum.map
    (fun p => validator_block field_name (p.1 + 1) p.2.1 p.2.2)

/-- The `code_lines` entries contributed by one field: its declaration line
followed by its validator blocks. -/
def field_lines (field : FieldSpec) : List String :=
  [field_decl_line field] ++ validator_blocks field.name field.custom_validations

/-- One keyword argument of the example statement:
`f"{item['name']}=\"{item['value']}\"" if item["type"] == "str" else
 f"{item['name']}={item['value']}"` -/
def example_param (item : ExampleItem) : String :=
  if item.type = "str" then item.name ++ "=\"" ++ item.value ++ "\""
  else item.name ++ "=" ++ item.value

/-- The `example_items` entry built from one field
(`field.get("name", "")`, `field.get("value", "")`, `field.get("type", "")`). -/
def toExampleItem (field : FieldSpec) : ExampleItem :=
  { name := field.name, value := field.value, type := field.type }

/-- Derived description: the text block one field contributes, its
declaration line immediately followed by its validator blocks. -/
def field_block (field : FieldSpec) : String :=
  String.join (field_lines field)

/-- Derived description: the whole field section, one block per field in
sequence order. -/
def body_text (field_data : List FieldSpec) : String :=
  String.join (field_data.map field_block)

/-- Derived description of the example-construction statement: the
lower-cased, `"model"`-stripped variable name assigned a constructor call
with one keyword argument per item, in order. -/
def example_stmt (model_name : String) (items : List ExampleItem) : String :=
  (model_name.toLower.replace "model" "") ++ " = " ++ model_name ++ "(" ++
    String.intercalate ", " (items.map example_param) ++ ")\n"

end Gen

namespace App

/-- `app.py`'s `get_field_constraints`, with every widget call embedded by
its default return value (the claims under verification quantify over the
default widget state only).  Note the source has no branch for `"bool"`. -/
def get_field_constraints (field_type : String) : List (String × CVal) :=
  if field_type = "str" then
    [("min_length", CVal.int 0), ("max_length", CVal.int 100),
     ("nullable", CVal.bool false)]
  else if field_type = "int" ∨ field_type = "float" then
    [("gt", CVal.int 0), ("lt", CVal.int 100)] ++
    (if field_type = "float" then
      [("max_digits", CVal.int 10), ("decimal_places", CVal.int 2)] else []) ++
    [("nullable", CVal.bool false)]
  else if field_type = "date" ∨ field_type = "datetime" ∨ field_type = "time" then
    [("nullable", CVal.bool false)]
  else if field_type = "dict" then
    [("nullable", CVal.bool false)]
  else if field_type = "list" then
    [("nullable", CVal.bool false)]
  else
    []

namespace FieldManager

/-- `app.py`'s `FieldManager.add_field`, acting on the caller's sequence
(session state is passed explicitly).  It wraps the stored type in
`Optional[...]` when the `nullable` constraint is truthy; the stored record
has no `"value"` key (embedded as `value := ""`). -/
def add_field (field_data : List FieldSpec) (field_name field_type : String)
    (constraints : List (String × CVal))
    (custom_validations : List (String × String)) : List FieldSpec :=
  let python_type :=
    if getNullable constraints then "Optional[" ++ field_type ++ "]" else field_type
  field_data ++ [{ name := field_name, type := python_type, value := "",
                   constraints := constraints,
                   custom_validations := custom_validations }]

/-- `app.py`'s `FieldManager.remove_field`: a guarded `pop(index)`. -/
def remove_field (field_data : List FieldSpec) (index : Int) :
    Except PyErr (List FieldSpec) :=
  if 0 ≤ index ∧ index < (field_data.length : Int) then
    pyListPop field_data index
  else
    Except.ok field_data

/-- `app.py`'s `FieldManager.update_field`: a guarded index assignment.
Unlike `add_field` it stores `field_type` itself, without `Optional[...]`
wrapping. -/
def update_field (field_data : List FieldSpec) (index : Int)
    (field_name field_type : String) (constraints : List (String × CVal))
    (custom_validations : List (String × String)) :
    Except PyErr (List FieldSpec) :=
  if 0 ≤ index ∧ index < (field_data.length : Int) then
    pyListSet field_data index
      { name := field_name, type := field_type, value := "",
        constraints := constraints, custom_validations := custom_validations }
  else
    Except.ok field_data

end FieldManager

namespace ModelGenerator

/-- `app.py`'s `ModelGenerator.generate_code`: header lines, then a loop
appending each field's declaration line and validator blocks, then
`"".join(code_lines)`.  This variant emits no example-usage section. -/
def generate_code (model_name : String) (field_data : List FieldSpec) : String :=
  let code_lines := field_data.foldl
    (fun acc field => acc ++ Gen.field_lines field)
    (Gen.header_lines model_name)
  String.join code_lines

/-- Statement-by-statement translation of `app.py`'s `generate_code` that
additionally threads the caller-owned `field_data` sequence through the
loop, returning its final value: no statement of the source writes to it,
so each iteration passes it through unchanged. -/
def generate_code_run (model_name : String) (field_data : List FieldSpec) :
    String × List FieldSpec :=
  let folded := field_data.foldl
    (fun acc field => (acc.1 ++ Gen.field_lines field, acc.2))
    (Gen.header_lines model_name, field_data)
  (String.join folded.1, folded.2)

end ModelGenerator

/-- One submission to `add_field`, in the argument order of `app.py`'s
`FieldManager.add_field`: field name, field type, constraints, custom
validations. -/
abbrev AddCall : Type :=
  String × String × List (String × CVal) × List (String × String)

/-- A sequence of `add_field` submissions applied in order to a starting
sequence (the driver the UI performs once per "Add Field" click). -/
def FieldManager.add_many (calls : List AddCall) (init : List FieldSpec) :
    List FieldSpec :=
  calls.foldl
    (fun acc c => FieldManager.add_field acc c.1 c.2.1 c.2.2.1 c.2.2.2) init

/-- The record `app.py`'s `add_field` appends for one submission. -/
def added_record (c : AddCall) : FieldSpec :=
  { name := c.1,
    type := if getNullable c.2.2.1 then "Optional[" ++ c.2.1 ++ "]" else c.2.1,
    value := "", constraints := c.2.2.1, custom_validations := c.2.2.2 }

end App

namespace Utils

/-- `utils.py`'s `get_field_constraints`, widgets embedded by their default
values.  This variant never produces a `nullable` key and also recognises
`Optional[...]`-wrapped type names. -/
def get_field_constraints (field_type : String) : List (String × CVal) :=
  if field_type = "str" ∨ field_type = "Optional[str]" then
    [("min_length", CVal.int 0), ("max_length", CVal.int 100)]
  else if field_type = "int" ∨ field_type = "Optional[int]" ∨
          field_type = "float" ∨ field_type = "Optional[float]" then
    [("gt", CVal.int 0), ("lt", CVal.int 100)] ++
    (if field_type = "float" ∨ field_type = "Optional[float]" then
      [("max_digits", CVal.int 10), ("decimal_places", CVal.int 2)] else [])
  else
    []

namespace ModelGenerator

/-- The loop body of `utils.py`'s `generate_code`: extends `code_lines` with
the field's declaration and validator lines and `example_items` with the
field's example entry. -/
def loop_step (acc : List String × List ExampleItem) (field : FieldSpec) :
    List String × List ExampleItem :=
  (acc.1 ++ Gen.field_lines field, acc.2 ++ [Gen.toExampleItem field])

/-- `utils.py`'s `ModelGenerator.generate_code`: header lines, the field
loop, then the example-usage section
`"\n\n# Example Usage\n"` and
`f"{model_name.lower().replace('model', '')} = {model_name}({example_params})\n"`,
joined by `"".join`. -/
def generate_code (model_name : String) (field_data : List FieldSpec) : String :=
  let folded := field_data.foldl loop_step (Gen.header_lines model_name, [])
  let example_params := String.intercalate ", " (folded.2.map Gen.example_param)
  String.join (folded.1 ++
    ["\n\n# Example Usage\n",
     ((model_name.toLower.replace "model" "") ++ " = " ++ model_name ++ "(" ++
       example_params ++ ")\n")])

/-- Statement-by-statement translation of `generate_code` that additionally
threads the caller-owned `field_data` sequence through the loop, returning
its final value: no statement of the source writes to it, so each iteration
passes it through unchanged. -/
def generate_code_run (model_name : String) (field_data : List FieldSpec) :
    String × List FieldSpec :=
  let folded := field_data.foldl
    (fun acc field =>
      (acc.1 ++ Gen.field_lines field, acc.2.1 ++ [Gen.toExampleItem field], acc.2.2))
    (Gen.header_lines model_name, ([] : List ExampleItem), field_data)
  let example_params := String.intercalate ", " (folded.2.1.map Gen.example_param)
  (String.join (folded.1 ++
    ["\n\n# Example Usage\n",
     ((model_name.toLower.replace "model" "") ++ " = " ++ model_name ++ "(" ++
       example_params ++ ")\n")]),
   folded.2.2)

end ModelGenerator

namespace FieldManager

/-- `utils.py`'s `FieldManager.add_field`: like the `app.py` variant but the
record also stores the example `value`. -/
def add_field (field_data : List FieldSpec)
    (field_name field_type field_value : String)
    (constraints : List (String × CVal))
    (custom_validations : List (String × String)) : List FieldSpec :=
  let python_type :=
    if getNullable constraints then "Optional[" ++ field_type ++ "]" else field_type
  field_data ++ [{ name := field_name, type := python_type, value := field_value,
                   constraints := constraints,
                   custom_validations := custom_validations }]

/-- `utils.py`'s `FieldManager.remove_field` (identical to `app.py`'s). -/
def remove_field (field_data : List FieldSpec) (index : Int) :
    Except PyErr (List FieldSpec) :=
  if 0 ≤ index ∧ index < (field_data.length : Int) then
    pyListPop field_data index
  else
    Except.ok field_data

/-- `utils.py`'s `FieldManager.update_field`: guarded index assignment; this
variant recomputes the `Optional[...]` wrapping, like `add_field`. -/
def update_field (field_data : List FieldSpec) (index : Int)
    (field_name field_type field_value : String)
    (constraints : List (String × CVal))
    (custom_validations : List (String × String)) :
    Except PyErr (List FieldSpec) :=
  if 0 ≤ index ∧ index < (field_data.length : Int) then
    let python_type :=
      if getNullable constraints then "Optional[" ++ field_type ++ "]" else field_type
    pyListSet field_data index
      { name := field_name, type := python_type, value := field_value,
        constraints := constraints, custom_validations := custom_validations }
  else
    Except.ok field_data

end FieldManager

end Utils

/-- Sample concrete field (an integer `age` with two custom validations)
used by witnesses. -/
def sampleAge : FieldSpec :=
  { name := "age", type := "int", value := "30",
    constraints := [("gt", CVal.int 0), ("lt", CVal.int 150),
                    ("nullable", CVal.bool false)],
    custom_validations := [("value > 150", "Age too high"),
                           ("value < 0", "Age negative")] }

/-- Sample concrete field (a string `city`) used by witnesses. -/
def sampleCity : FieldSpec :=
  { name := "city", type := "str", value := "Paris",
    constraints := [("min_length", CVal.int 0), ("max_length", CVal.int 100)],
    custom_validations := [] }

/-! ## Structural helper lemmas

String-join algebra and the closed forms of the generators' folds, used by
several of the claim theorems below. -/

theorem string_join_append (a b : List String) :
    String.join (a ++ b) = String.join a ++ String.join b := by
  apply String.ext
  simp [String.join_eq]

theorem string_join_cons (s : String) (l : List String) :
    String.join (s :: l) = s ++ String.join l := by
  apply String.ext
  simp [String.join_eq]

theorem string_join_nil : String.join [] = "" := rfl

theorem string_join_flatten (L : List (List String)) :
    String.join L.flatten = String.join (L.map String.join) := by
  induction L with
  | nil => rfl
  | cons x L ih =>
      simp only [List.flatten_cons, List.map_cons, string_join_append,
        string_join_cons, ih]

/-- Closed form of `app.py`'s `code_lines` loop. -/
theorem app_fold_eq (fd : List FieldSpec) (acc : List String) :
    fd.foldl (fun a field => a ++ Gen.field_lines field) acc
      = acc ++ (fd.map Gen.field_lines).flatten := by
  induction fd generalizing acc with
  | nil => simp
  | cons f fd ih => simp [ih]

/-- Closed form of `utils.py`'s `code_lines`/`example_items` loop. -/
theorem utils_fold_eq (fd : List FieldSpec)
    (acc : List String × List ExampleItem) :
    fd.foldl Utils.ModelGenerator.loop_step acc
      = (acc.1 ++ (fd.map Gen.field_lines).flatten,
         acc.2 ++ fd.map Gen.toExampleItem) := by
  induction fd generalizing acc with
  | nil => simp
  | cons f fd ih => simp [Utils.ModelGenerator.loop_step, ih]

/-- Closed form of the state-threading variant of the loop. -/
theorem run_fold_eq (fd : List FieldSpec)
    (acc : List String × List ExampleItem × List FieldSpec) :
    fd.foldl (fun a field =>
        (a.1 ++ Gen.field_lines field, a.2.1 ++ [Gen.toExampleItem field], a.2.2)) acc
      = (acc.1 ++ (fd.map Gen.field_lines).flatten,
         acc.2.1 ++ fd.map Gen.toExampleItem, acc.2.2) := by
  induction fd generalizing acc with
  | nil => simp
  | cons f fd ih => simp [ih]

theorem body_text_eq (fd : List FieldSpec) :
    String.join ((fd.map Gen.field_lines).flatten) = Gen.body_text fd := by
  rw [string_join_flatten, List.map_map]
  rfl

/-- `app.py`'s generator is the header followed by the field blocks. -/
theorem app_generate_decomp (m : String) (fd : List FieldSpec) :
    App.ModelGenerator.generate_code m fd
      = String.join (Gen.header_lines m) ++ Gen.body_text fd := by
  unfold App.ModelGenerator.generate_code
  rw [app_fold_eq, string_join_append, body_text_eq]

/-- `utils.py`'s generator is the header, the field blocks, the example
separator and comment, and the example statement. -/
theorem utils_generate_decomp (m : String) (fd : List FieldSpec) :
    Utils.ModelGenerator.generate_code m fd
      = String.join (Gen.header_lines m) ++ Gen.body_text fd ++
        "\n\n# Example Usage\n" ++ Gen.example_stmt m (fd.map Gen.toExampleItem) := by
  unfold Utils.ModelGenerator.generate_code
  rw [utils_fold_eq]
  simp only [List.nil_append, string_join_append, string_join_cons,
    string_join_nil, body_text_eq, String.append_empty, Gen.example_stmt,
    List.map_map]
  simp [String.append_assoc, Function.comp]

/-- The state-threading translation computes the pure generator's output and
returns the caller's sequence unchanged. -/
theorem utils_generate_run_eq (m : String) (fd : List FieldSpec) :
    Utils.ModelGenerator.generate_code_run m fd
      = (Utils.ModelGenerator.generate_code m fd, fd) := by
  unfold Utils.ModelGenerator.generate_code_run Utils.ModelGenerator.generate_code
  rw [run_fold_eq, utils_fold_eq]

/-- Closed form of the state-threading variant of `app.py`'s loop. -/
theorem app_run_fold_eq (fd : List FieldSpec)
    (acc : List String × List FieldSpec) :
    fd.foldl (fun a field => (a.1 ++ Gen.field_lines field, a.2)) acc
      = (acc.1 ++ (fd.map Gen.field_lines).flatten, acc.2) := by
  induction fd generalizing acc with
  | nil => simp
  | cons f fd ih => simp [ih]

/-- The `app.py` analogue of `utils_generate_run_eq`. -/
theorem app_generate_run_eq (m : String) (fd : List FieldSpec) :
    App.ModelGenerator.generate_code_run m fd
      = (App.ModelGenerator.generate_code m fd, fd) := by
  unfold App.ModelGenerator.generate_code_run App.ModelGenerator.generate_code
  rw [app_run_fold_eq, app_fold_eq]

/-- Folding `add_field` submissions appends one record per submission, in
submission order. -/
theorem add_many_eq (calls : List App.AddCall) (init : List FieldSpec) :
    App.FieldManager.add_many calls init
      = init ++ calls.map App.added_record := by
  induction calls generalizing init with
  | nil => simp [App.FieldManager.add_many]
  | cons c cs ih =>
      simp only [App.FieldManager.add_many, List.foldl_cons] at ih ⊢
      rw [show App.FieldManager.add_field init c.1 c.2.1 c.2.2.1 c.2.2.2
            = init ++ [App.added_record c] from rfl, ih]
      simp

theorem pyNormIndex_in_range {len : Nat} {i : Int}
    (h0 : 0 ≤ i) (h1 : i < (len : Int)) :
    pyNormIndex len i = some i.toNat := by
  unfold pyNormIndex
  rw [if_pos h0, if_pos h1]

theorem pyListSet_in_range {α : Type} (l : List α) (i : Int) (a : α)
    (h0 : 0 ≤ i) (h1 : i < (l.length : Int)) :
    pyListSet l i a = Except.ok (l.set i.toNat a) := by
  unfold pyListSet
  rw [pyNormIndex_in_range h0 h1]

theorem pyListPop_in_range {α : Type} (l : List α) (i : Int)
    (h0 : 0 ≤ i) (h1 : i < (l.length : Int)) :
    pyListPop l i = Except.ok (l.eraseIdx i.toNat) := by
  unfold pyListPop
  rw [pyNormIndex_in_range h0 h1]

/-- Key extraction commutes with the `nullable` filter. -/
theorem filter_map_fst_comm (l : List (String × CVal)) :
    ((l.filter (fun kv => kv.1 ≠ "nullable")).map Prod.fst)
      = (l.map Prod.fst).filter (fun k => k ≠ "nullable") := by
  induction l with
  | nil => rfl
  | cons kv l ih =>
      by_cases h : kv.1 = "nullable"
      · simpa [List.filter_cons, h] using ih
      · simpa [List.filter_cons, h] using ih

/-- An `Optional[...]`-wrapped type string is never the bare string type
name, whatever the wrapped base type is (the lengths differ). -/
theorem optional_wrap_ne_str (t : String) : ("Optional[" ++ t ++ "]") ≠ "str" := by
  intro h
  have hl := congrArg String.length h
  rw [String.length_append, String.length_append] at hl
  have h9 : "Optional[".length = 9 := rfl
  have h1 : "]".length = 1 := rfl
  have h3 : "str".length = 3 := rfl
  omega

/-! ## Claim theorems -/

/-- Claim C1 is false as stated: on the out-of-range index 0 of the empty
sequence, `update_field` (both variants) raises nothing and returns the
sequence unchanged, instead of an `IndexError`-kind fault. -/
theorem C1_counterexample :
    App.FieldManager.update_field [] 0 "age" "int" [] [] = Except.ok [] ∧
    Utils.FieldManager.update_field [] 0 "age" "int" "30" [] [] = Except.ok [] ∧
    (Except.ok ([] : List FieldSpec) : Except PyErr (List FieldSpec)) ≠
      Except.error PyErr.indexError := by
  refine ⟨rfl, rfl, by simp⟩

/-- Claim C1 (amended): `update_field` never raises; on an index outside
`[0, len)` it is a silent no-op leaving the sequence unchanged, and on an
index inside the range it replaces the element at that index with the new
record, preserving its position and the sequence's length.  (`app.py`'s
variant stores `field_type` unwrapped; `utils.py`'s recomputes the
`Optional[...]` wrapping — see C5.) -/
theorem C1_update_silent (fd : List FieldSpec) (i : Int) (n t v : String)
    (cs : List (String × CVal)) (cv : List (String × String)) :
    App.FieldManager.update_field fd i n t cs cv
      = Except.ok (if 0 ≤ i ∧ i < (fd.length : Int)
          then fd.set i.toNat
            { name := n, type := t, value := "",
              constraints := cs, custom_validations := cv }
          else fd) ∧
    Utils.FieldManager.update_field fd i n t v cs cv
      = Except.ok (if 0 ≤ i ∧ i < (fd.length : Int)
          then fd.set i.toNat
            { name := n,
              type := if getNullable cs then "Optional[" ++ t ++ "]" else t,
              value := v, constraints := cs, custom_validations := cv }
          else fd) ∧
    (if 0 ≤ i ∧ i < (fd.length : Int)
        then fd.set i.toNat
          { name := n, type := t, value := "",
            constraints := cs, custom_validations := cv }
        else fd).length = fd.length := by
  by_cases h : 0 ≤ i ∧ i < (fd.length : Int)
  · refine ⟨?_, ?_, ?_⟩
    · simp only [App.FieldManager.update_field, if_pos h,
        pyListSet_in_range _ _ _ h.1 h.2]
    · simp only [Utils.FieldManager.update_field, if_pos h,
        pyListSet_in_range _ _ _ h.1 h.2]
    · simp [if_pos h]
  · refine ⟨?_, ?_, ?_⟩ <;>
      simp [App.FieldManager.update_field, Utils.FieldManager.update_field,
        if_neg h]

/-- Claim C2 is false as stated: in `app.py` the base type `bool` has no
branch at all, so it yields the empty constraint mapping rather than
`nullable=false`; and the `utils.py` variant never emits a `nullable` key. -/
theorem C2_counterexample :
    App.get_field_constraints "bool" = [] ∧
    ([] : List (String × CVal)) ≠ [("nullable", CVal.bool false)] ∧
    Utils.get_field_constraints "str"
      = [("min_length", CVal.int 0), ("max_length", CVal.int 100)] ∧
    (Utils.get_field_constraints "str").find? (fun kv => kv.1 = "nullable")
      = none := by
  refine ⟨by decide, by simp, by decide, by decide⟩

/-- Claim C2 (amended): under the default widget values, `app.py`'s
constraint resolution returns the spec's keys and defaults for string,
integer, float, date, datetime, time, dict and list, but returns the empty
mapping for boolean; `utils.py`'s variant returns the same non-`nullable`
keys and defaults and never a `nullable` key. -/
theorem C2_constraints_table :
    App.get_field_constraints "str"
      = [("min_length", CVal.int 0), ("max_length", CVal.int 100),
         ("nullable", CVal.bool false)] ∧
    App.get_field_constraints "int"
      = [("gt", CVal.int 0), ("lt", CVal.int 100), ("nullable", CVal.bool false)] ∧
    App.get_field_constraints "float"
      = [("gt", CVal.int 0), ("lt", CVal.int 100), ("max_digits", CVal.int 10),
         ("decimal_places", CVal.int 2), ("nullable", CVal.bool false)] ∧
    App.get_field_constraints "bool" = [] ∧
    App.get_field_constraints "date" = [("nullable", CVal.bool false)] ∧
    App.get_field_constraints "datetime" = [("nullable", CVal.bool false)] ∧
    App.get_field_constraints "time" = [("nullable", CVal.bool false)] ∧
    App.get_field_constraints "dict" = [("nullable", CVal.bool false)] ∧
    App.get_field_constraints "list" = [("nullable", CVal.bool false)] ∧
    Utils.get_field_constraints "str"
      = [("min_length", CVal.int 0), ("max_length", CVal.int 100)] ∧
    Utils.get_field_constraints "int" = [("gt", CVal.int 0), ("lt", CVal.int 100)] ∧
    Utils.get_field_constraints "float"
      = [("gt", CVal.int 0), ("lt", CVal.int 100), ("max_digits", CVal.int 10),
         ("decimal_places", CVal.int 2)] ∧
    Utils.get_field_constraints "bool" = [] ∧
    Utils.get_field_constraints "date" = [] ∧
    Utils.get_field_constraints "datetime" = [] ∧
    Utils.get_field_constraints "time" = [] ∧
    Utils.get_field_constraints "dict" = [] ∧
    Utils.get_field_constraints "list" = [] := by
  decide

/-- Claim C5 states the intent (`add` and `update` alike wrap nullable types
in `Optional[...]`), and `app.py`'s `add_field` and `utils.py`'s
`update_field` honour it, but `app.py`'s `update_field` stores the raw
`field_type` unwrapped: updating a nullable string field yields declared
type `"str"`, not `"Optional[str]"`.  Evaluation at the failing input. -/
theorem C5_update_drops_optional :
    App.FieldManager.add_field [] "nickname" "str"
        [("nullable", CVal.bool true)] []
      = [{ name := "nickname", type := "Optional[str]", value := "",
           constraints := [("nullable", CVal.bool true)],
           custom_validations := [] }] ∧
    App.FieldManager.update_field
        [{ name := "nickname", type := "Optional[str]", value := "",
           constraints := [("nullable", CVal.bool true)],
           custom_validations := [] }]
        0 "nickname" "str" [("nullable", CVal.bool true)] []
      = Except.ok
          [{ name := "nickname", type := "str", value := "",
             constraints := [("nullable", CVal.bool true)],
             custom_validations := [] }] ∧
    Utils.FieldManager.update_field
        [{ name := "nickname", type := "Optional[str]", value := "",
           constraints := [("nullable", CVal.bool true)],
           custom_validations := [] }]
        0 "nickname" "str" "" [("nullable", CVal.bool true)] []
      = Except.ok
          [{ name := "nickname", type := "Optional[str]", value := "",
             constraints := [("nullable", CVal.bool true)],
             custom_validations := [] }] ∧
    "str" ≠ "Optional[str]" := by
  refine ⟨rfl, rfl, rfl, by decide⟩

/-- Claim C6: the `Field(...)` argument list excludes any `nullable` entry,
renders every other entry exactly once as `key=repr(value)` in the
mapping's iteration order, joined by `", "`; a mapping holding only
`nullable`, or nothing, yields the empty argument list. -/
theorem C6_constraint_args (cs : List (String × CVal)) (v : CVal)
    (hk : (cs.map Prod.fst).Nodup) :
    Gen.field_constraints_code cs
      = String.intercalate ", "
          ((cs.filter (fun kv => kv.1 ≠ "nullable")).map
            (fun kv => kv.1 ++ "=" ++ pyRepr kv.2)) ∧
    ((cs.filter (fun kv => kv.1 ≠ "nullable")).map Prod.fst)
      = (cs.map Prod.fst).filter (fun k => k ≠ "nullable") ∧
    ((cs.filter (fun kv => kv.1 ≠ "nullable")).map Prod.fst).Nodup ∧
    Gen.field_constraints_code [] = "" ∧
    Gen.field_constraints_code [("nullable", v)] = "" := by
  refine ⟨rfl, filter_map_fst_comm cs, ?_, rfl, rfl⟩
  rw [filter_map_fst_comm cs]
  exact hk.filter _

theorem C6_witness :
    (([("gt", CVal.int 0), ("nullable", CVal.bool false)].filter
        (fun kv => kv.1 ≠ "nullable")).map Prod.fst)
      = ([("gt", CVal.int 0),
          ("nullable", CVal.bool false)].map Prod.fst).filter
          (fun k => k ≠ "nullable") ∧
    Gen.field_constraints_code
        [("gt", CVal.int 0), ("nullable", CVal.bool false)]
      = String.intercalate ", "
          (([("gt", CVal.int 0), ("nullable", CVal.bool false)].filter
              (fun kv => kv.1 ≠ "nullable")).map
            (fun kv => kv.1 ++ "=" ++ pyRepr kv.2)) :=
  ⟨(C6_constraint_args _ (CVal.bool false) (by decide)).2.1,
   (C6_constraint_args _ (CVal.bool false) (by decide)).1⟩

/-- Claim C7: `remove_field` (both variants) is a silent no-op on an
out-of-bounds index (in particular on the empty sequence), and on an
in-bounds index deletes exactly the element at that index, the remainder
being the prefix before it followed by the suffix after it, so the length
decreases by exactly one. -/
theorem C7_remove_field (fd : List FieldSpec) (i : Int) :
    (¬ (0 ≤ i ∧ i < (fd.length : Int)) →
      App.FieldManager.remove_field fd i = Except.ok fd ∧
      Utils.FieldManager.remove_field fd i = Except.ok fd) ∧
    ((0 ≤ i ∧ i < (fd.length : Int)) →
      App.FieldManager.remove_field fd i = Except.ok (fd.eraseIdx i.toNat) ∧
      Utils.FieldManager.remove_field fd i = Except.ok (fd.eraseIdx i.toNat) ∧
      fd.eraseIdx i.toNat = fd.take i.toNat ++ fd.drop (i.toNat + 1) ∧
      (fd.eraseIdx i.toNat).length = fd.length - 1) := by
  constructor
  · intro h
    constructor <;>
      simp [App.FieldManager.remove_field, Utils.FieldManager.remove_field,
        if_neg h]
  · intro h
    have hlen : i.toNat < fd.length := by omega
    refine ⟨?_, ?_, ?_, ?_⟩
    · simp only [App.FieldManager.remove_field, if_pos h,
        pyListPop_in_range _ _ h.1 h.2]
    · simp only [Utils.FieldManager.remove_field, if_pos h,
        pyListPop_in_range _ _ h.1 h.2]
    · exact List.eraseIdx_eq_take_drop_succ fd i.toNat
    · exact List.length_eraseIdx_of_lt hlen

theorem C7_witness :
    App.FieldManager.remove_field [] 0 = Except.ok [] ∧
    App.FieldManager.remove_field [sampleAge, sampleCity] 1
      = Except.ok [sampleAge] ∧
    Utils.FieldManager.remove_field [sampleAge, sampleCity] 1
      = Except.ok [sampleAge] :=
  ⟨((C7_remove_field [] 0).1 (by decide)).1,
   (by simpa using ((C7_remove_field [sampleAge, sampleCity] 1).2 (by decide)).1),
   (by simpa using ((C7_remove_field [sampleAge, sampleCity] 1).2 (by decide)).2.1)⟩

/-- Claim C3 is false as stated for the repository's `app.py` generator,
which emits no example-construction statement at all: on model name
`"Model"` with no fields its output is exactly the header (shown literally),
and while every example-construction statement ends with the characters
`")\n"`, this output does not end with them, so it ends with no
example-construction statement. -/
theorem C3_counterexample :
    App.ModelGenerator.generate_code "Model" []
      = "from pydantic import BaseModel, Field, field_validator\nfrom typing import Optional, List, Dict\nfrom datetime import date, datetime, time\n\nclass Model(BaseModel):\n" ∧
    (")\n").data <:+ (Gen.example_stmt "Model"
      (([] : List FieldSpec).map Gen.toExampleItem)).data ∧
    ¬ ((")\n").data <:+ (App.ModelGenerator.generate_code "Model" []).data) := by
  refine ⟨rfl, ⟨(("Model".toLower.replace "model" "") ++ " = " ++ "Model" ++ "(" ++
    String.intercalate ", " (([] : List FieldSpec).map
      (fun f => Gen.example_param (Gen.toExampleItem f)))).data, ?_⟩, by decide⟩
  exact (String.data_append _ _).symm

/-- Claim C3 (amended): only the `utils.py` generator emits the example
section; after all field declarations and validator blocks it appends a
blank separator and a `# Example Usage` comment line followed by exactly
one example-construction statement — the model name lowercased with every
occurrence of the literal substring `"model"` removed, assigned a call to
the class constructor with one keyword argument per field in declaration
order.  The `app.py` generator stops after the field blocks. -/
theorem C3_example_stmt (m : String) (fd : List FieldSpec) :
    Utils.ModelGenerator.generate_code m fd
      = String.join (Gen.header_lines m) ++ Gen.body_text fd ++
        "\n\n# Example Usage\n" ++ Gen.example_stmt m (fd.map Gen.toExampleItem) ∧
    Gen.example_stmt m (fd.map Gen.toExampleItem)
      = (m.toLower.replace "model" "") ++ " = " ++ m ++ "(" ++
        String.intercalate ", "
          (fd.map (fun f => Gen.example_param (Gen.toExampleItem f))) ++ ")\n" ∧
    (fd.map (fun f => Gen.example_param (Gen.toExampleItem f))).length = fd.length ∧
    App.ModelGenerator.generate_code m fd
      = String.join (Gen.header_lines m) ++ Gen.body_text fd := by
  refine ⟨utils_generate_decomp m fd, ?_, by simp, app_generate_decomp m fd⟩
  simp only [Gen.example_stmt, List.map_map]
  rfl

/-- Claim C4 is false as stated: a nullable string field stores declared
type `"Optional[str]"`, the quoting test compares the stored type with
`"str"`, so the example value of a nullable string field is embedded
unquoted (`name=Alice`), not wrapped in quotes. -/
theorem C4_counterexample :
    Utils.FieldManager.add_field [] "name" "str" "Alice"
        [("nullable", CVal.bool true)] []
      = [{ name := "name", type := "Optional[str]", value := "Alice",
           constraints := [("nullable", CVal.bool true)],
           custom_validations := [] }] ∧
    Utils.ModelGenerator.generate_code "UserModel"
        (Utils.FieldManager.add_field [] "name" "str" "Alice"
          [("nullable", CVal.bool true)] [])
      = String.join (Gen.header_lines "UserModel") ++
        Gen.body_text (Utils.FieldManager.add_field [] "name" "str" "Alice"
          [("nullable", CVal.bool true)] []) ++
        "\n\n# Example Usage\n" ++
        (("UserModel".toLower.replace "model" "") ++ " = " ++ "UserModel" ++ "(" ++
          "name=Alice" ++ ")\n") ∧
    "name=Alice" ≠ "name=\"Alice\"" := by
  refine ⟨rfl, ?_, by decide⟩
  rw [utils_generate_decomp]
  rfl

/-- Claim C4 (amended): in the generated example-construction statement
every field's keyword argument is rendered by the quoting rule "wrapped in
quotes exactly when the stored declared type string equals `"str"`" — so
for a field added through the registry with any base type and nullable
flag, the example value is quoted iff the field is a non-nullable string:
every non-string base type is embedded unquoted, and so is a nullable
string field, whose stored type is `"Optional[str]"` (never `"str"`, since
an `Optional[...]`-wrapped type string differs from `"str"` for every base
type). -/
theorem C4_quoting (m fname fvalue t : String) (nb : Bool)
    (fd : List FieldSpec) (f : FieldSpec) :
    Utils.ModelGenerator.generate_code m fd
      = String.join (Gen.header_lines m) ++ Gen.body_text fd ++
        "\n\n# Example Usage\n" ++
        ((m.toLower.replace "model" "") ++ " = " ++ m ++ "(" ++
          String.intercalate ", "
            (fd.map (fun g => Gen.example_param (Gen.toExampleItem g))) ++
          ")\n") ∧
    Gen.example_param (Gen.toExampleItem f)
      = (if f.type = "str" then f.name ++ "=\"" ++ f.value ++ "\""
         else f.name ++ "=" ++ f.value) ∧
    Utils.FieldManager.add_field [] fname t fvalue
        [("nullable", CVal.bool nb)] []
      = [{ name := fname,
           type := if nb then "Optional[" ++ t ++ "]" else t,
           value := fvalue, constraints := [("nullable", CVal.bool nb)],
           custom_validations := [] }] ∧
    Gen.example_param (Gen.toExampleItem
        { name := fname,
          type := if nb then "Optional[" ++ t ++ "]" else t,
          value := fvalue, constraints := [("nullable", CVal.bool nb)],
          custom_validations := [] })
      = (if nb = false ∧ t = "str"
         then fname ++ "=\"" ++ fvalue ++ "\""
         else fname ++ "=" ++ fvalue) := by
  refine ⟨?_, rfl, rfl, ?_⟩
  · rw [utils_generate_decomp]
    simp only [Gen.example_stmt, List.map_map]
    rfl
  · cases nb with
    | false =>
        by_cases ht : t = "str"
        · simp [Gen.example_param, Gen.toExampleItem, ht]
        · simp [Gen.example_param, Gen.toExampleItem, ht]
    | true =>
        simp [Gen.example_param, Gen.toExampleItem, optional_wrap_ne_str t]

/-- Claim C8: a field with K custom validations contributes its declaration
line immediately followed by exactly K validator blocks; the block at
0-based position `i` carries the 1-based index `i + 1`, the decorator line
tagging the field's name, the function name `validate_{name}_{i+1}`, the
conditional line embedding the i-th logic string verbatim and the raise
line embedding the i-th error message verbatim. -/
theorem C8_validator_layout (m : String) (fd : List FieldSpec) (f : FieldSpec)
    (lg er : String) (i : Nat) (h : i < f.custom_validations.length) :
    Utils.ModelGenerator.generate_code m fd
      = String.join (Gen.header_lines m) ++ Gen.body_text fd ++
        "\n\n# Example Usage\n" ++ Gen.example_stmt m (fd.map Gen.toExampleItem) ∧
    App.ModelGenerator.generate_code m fd
      = String.join (Gen.header_lines m) ++ Gen.body_text fd ∧
    Gen.body_text fd = String.join (fd.map Gen.field_block) ∧
    Gen.field_block f
      = Gen.field_decl_line f ++
        String.join (Gen.validator_blocks f.name f.custom_validations) ∧
    (Gen.validator_blocks f.name f.custom_validations).length
      = f.custom_validations.length ∧
    (Gen.validator_blocks f.name f.custom_validations)[i]?
      = some (Gen.validator_block f.name (i + 1)
          (f.custom_validations.get ⟨i, h⟩).1
          (f.custom_validations.get ⟨i, h⟩).2) ∧
    Gen.validator_block f.name (i + 1) lg er
      = "    @field_validator(\'" ++ f.name ++ "\')\n" ++
        "    def validate_" ++ f.name ++ "_" ++ toString (i + 1) ++ "(cls, value):\n" ++
        "        if " ++ lg ++ ":\n" ++
        "            raise ValueError(\'" ++ er ++ "\')\n" ++
        "        return value\n\n" := by
  refine ⟨utils_generate_decomp m fd, app_generate_decomp m fd, rfl, ?_, ?_, ?_, rfl⟩
  · rw [Gen.field_block, Gen.field_lines, string_join_append]
    rfl
  · simp [Gen.validator_blocks, List.enum_length]
  · simp [Gen.validator_blocks, List.getElem?_map, List.getElem?_enum,
      List.getElem?_eq_getElem h, List.get_eq_getElem]

theorem C8_witness :
    (Gen.validator_blocks "age"
        [("value > 150", "Age too high"), ("value < 0", "Age negative")])[1]?
      = some (Gen.validator_block "age" 2 "value < 0" "Age negative") := by
  have h := (C8_validator_layout "UserModel" [sampleAge] sampleAge
    "value < 0" "Age negative" 1 (by decide)).2.2.2.2.2.1
  simpa [sampleAge] using h

/-- Claim C9: adding N fields to the empty sequence via `add_field` (which
always appends and never fails) and then generating produces one
field-declaration block per added field — the generated text is the header
followed by the concatenation, in the original submission order, of each
added record's block, whose first line is its declaration line. -/
theorem C9_add_then_generate (m : String) (calls : List App.AddCall) :
    App.FieldManager.add_many calls [] = calls.map App.added_record ∧
    (App.FieldManager.add_many calls []).length = calls.length ∧
    (App.FieldManager.add_many calls []).map FieldSpec.name
      = calls.map (fun c => c.1) ∧
    App.ModelGenerator.generate_code m (App.FieldManager.add_many calls [])
      = String.join (Gen.header_lines m) ++
        String.join ((calls.map App.added_record).map Gen.field_block) ∧
    Utils.ModelGenerator.generate_code m (App.FieldManager.add_many calls [])
      = String.join (Gen.header_lines m) ++
        String.join ((calls.map App.added_record).map Gen.field_block) ++
        "\n\n# Example Usage\n" ++
        Gen.example_stmt m
          ((App.FieldManager.add_many calls []).map Gen.toExampleItem) := by
  have hm := add_many_eq calls []
  simp only [List.nil_append] at hm
  refine ⟨hm, ?_, ?_, ?_, ?_⟩
  · rw [hm, List.length_map]
  · rw [hm, List.map_map]
    rfl
  · rw [app_generate_decomp, hm]
    rfl
  · rw [utils_generate_decomp, hm]
    rfl

/-- Claim C10: generation is pure — the statement-by-statement translations
that thread the caller-owned field sequence return it unchanged and agree
with the pure functions, so a second invocation on the state left by a
first invocation produces identical text (both variants). -/
theorem C10_generate_pure (m : String) (fd : List FieldSpec) :
    Utils.ModelGenerator.generate_code_run m fd
      = (Utils.ModelGenerator.generate_code m fd, fd) ∧
    (Utils.ModelGenerator.generate_code_run m
        (Utils.ModelGenerator.generate_code_run m fd).2).1
      = (Utils.ModelGenerator.generate_code_run m fd).1 ∧
    App.ModelGenerator.generate_code_run m fd
      = (App.ModelGenerator.generate_code m fd, fd) ∧
    (App.ModelGenerator.generate_code_run m
        (App.ModelGenerator.generate_code_run m fd).2).1
      = (App.ModelGenerator.generate_code_run m fd).1 := by
  refine ⟨utils_generate_run_eq m fd, ?_, app_generate_run_eq m fd, ?_⟩
  · simp [utils_generate_run_eq]
  · simp [app_generate_run_eq]
